import Mathlib

/-!
Verification of the beartype core against its sources.

This file gives a shallow embedding, in Lean 4, of the parts of the
repository that the checked claims are about:

* `Roar` — the exception taxonomy of `beartype/roar/_roarexc.py`: every
  class declared there, its single declared base class, Python's
  `ABCMeta` instantiability rule, and the docstring "Abstract base class"
  markers.
* `Resolver` — the origin-type getters of
  `beartype/_util/hint/utilhintget.py`, over a small universe of hints
  (the two helpers they call live in modules absent from the sources and
  are modelled from the spec).
* `Engine` — a check/diagnose engine modelled from the spec (the real
  synthesizer and diagnoser are absent from the sources; only their unit
  test `test_beartype.py` is present).
* `ObjUtil` — the object utilities of `beartype/_util/utilobject.py`
  over a small universe of Python objects and types.
-/

namespace Roar

/-- Every class declared in `beartype/roar/_roarexc.py`, in source order.
Leading underscores of the private classes are kept. -/
inductive ExcClass where
  | BeartypeException
  | BeartypeCaveException
  | BeartypeCaveNoneTypeOrException
  | BeartypeCaveNoneTypeOrKeyException
  | BeartypeCaveNoneTypeOrMutabilityException
  | BeartypeConfException
  | BeartypeDecorException
  | BeartypeDecorWrappeeException
  | BeartypeDecorWrapperException
  | BeartypeDecorHintException
  | BeartypeDecorHintForwardRefException
  | BeartypeDecorHintTypeException
  | BeartypeDecorHintNonpepException
  | BeartypeDecorHintNonpepNumpyException
  | BeartypeDecorHintPepException
  | BeartypeDecorHintPepSignException
  | BeartypeDecorHintPepUnsupportedException
  | BeartypeDecorHintPep3119Exception
  | BeartypeDecorHintPep484Exception
  | BeartypeDecorHintPep484585Exception
  | BeartypeDecorHintPep544Exception
  | BeartypeDecorHintPep557Exception
  | BeartypeDecorHintPep585Exception
  | BeartypeDecorHintPep586Exception
  | BeartypeDecorHintPep593Exception
  | BeartypeDecorParamException
  | BeartypeDecorParamNameException
  | BeartypeDecorPepException
  | BeartypeDecorHintPep563Exception
  | BeartypeCallException
  | BeartypeCallUnavailableTypeException
  | BeartypeCallHintException
  | BeartypeCallHintForwardRefException
  | BeartypeCallHintViolation
  | BeartypeCallHintParamViolation
  | BeartypeCallHintReturnViolation
  | BeartypeAbbyHintViolation
  | BeartypeClawException
  | BeartypeClawRegistrationException
  | BeartypeValeException
  | BeartypeValeSubscriptionException
  | _BeartypeDecorBeartypistryException
  | _BeartypeUtilException
  | _BeartypeUtilCallableException
  | _BeartypeUtilMappingException
  | _BeartypeUtilModuleException
  | _BeartypeUtilPathException
  | _BeartypeUtilPythonException
  | _BeartypeUtilTextException
  | _BeartypeUtilTypeException
  | _BeartypeCallHintRaiseException
  | _BeartypeCallHintPepRaiseException
  | _BeartypeCallHintPepRaiseDesynchronizationException
  | _BeartypeUtilCachedException
  | _BeartypeUtilCallableCachedException
  | _BeartypeUtilCacheLruException
  | _BeartypeUtilCachedKeyPoolException
  | _BeartypeUtilCachedFixedListException
  | _BeartypeUtilCachedObjectTypedException
  | _BeartypeUtilObjectException
  | _BeartypeUtilObjectNameException
deriving DecidableEq, Fintype

open ExcClass

/-- The single base class each class declaration of `_roarexc.py` names,
or `none` for the root `BeartypeException`, whose base `Exception` is the
Python builtin outside the taxonomy. -/
def parentExc : ExcClass → Option ExcClass
  | .BeartypeException => none
  | .BeartypeCaveException => some .BeartypeException
  | .BeartypeCaveNoneTypeOrException => some .BeartypeCaveException
  | .BeartypeCaveNoneTypeOrKeyException => some .BeartypeCaveNoneTypeOrException
  | .BeartypeCaveNoneTypeOrMutabilityException => some .BeartypeCaveNoneTypeOrException
  | .BeartypeConfException => some .BeartypeException
  | .BeartypeDecorException => some .BeartypeException
  | .BeartypeDecorWrappeeException => some .BeartypeDecorException
  | .BeartypeDecorWrapperException => some .BeartypeDecorException
  | .BeartypeDecorHintException => some .BeartypeDecorException
  | .BeartypeDecorHintForwardRefException => some .BeartypeDecorHintException
  | .BeartypeDecorHintTypeException => some .BeartypeDecorHintException
  | .BeartypeDecorHintNonpepException => some .BeartypeDecorHintException
  | .BeartypeDecorHintNonpepNumpyException => some .BeartypeDecorHintNonpepException
  | .BeartypeDecorHintPepException => some .BeartypeDecorHintException
  | .BeartypeDecorHintPepSignException => some .BeartypeDecorHintPepException
  | .BeartypeDecorHintPepUnsupportedException => some .BeartypeDecorHintPepException
  | .BeartypeDecorHintPep3119Exception => some .BeartypeDecorHintPepException
  | .BeartypeDecorHintPep484Exception => some .BeartypeDecorHintPepException
  | .BeartypeDecorHintPep484585Exception => some .BeartypeDecorHintPepException
  | .BeartypeDecorHintPep544Exception => some .BeartypeDecorHintPepException
  | .BeartypeDecorHintPep557Exception => some .BeartypeDecorHintPepException
  | .BeartypeDecorHintPep585Exception => some .BeartypeDecorHintPepException
  | .BeartypeDecorHintPep586Exception => some .BeartypeDecorHintPepException
  | .BeartypeDecorHintPep593Exception => some .BeartypeDecorHintPepException
  | .BeartypeDecorParamException => some .BeartypeDecorException
  | .BeartypeDecorParamNameException => some .BeartypeDecorParamException
  | .BeartypeDecorPepException => some .BeartypeDecorException
  | .BeartypeDecorHintPep563Exception => some .BeartypeDecorPepException
  | .BeartypeCallException => some .BeartypeException
  | .BeartypeCallUnavailableTypeException => some .BeartypeCallException
  | .BeartypeCallHintException => some .BeartypeCallException
  | .BeartypeCallHintForwardRefException => some .BeartypeCallHintException
  | .BeartypeCallHintViolation => some .BeartypeCallHintException
  | .BeartypeCallHintParamViolation => some .BeartypeCallHintViolation
  | .BeartypeCallHintReturnViolation => some .BeartypeCallHintViolation
  | .BeartypeAbbyHintViolation => some .BeartypeCallHintViolation
  | .BeartypeClawException => some .BeartypeException
  | .BeartypeClawRegistrationException => some .BeartypeClawException
  | .BeartypeValeException => some .BeartypeException
  | .BeartypeValeSubscriptionException => some .BeartypeValeException
  | ._BeartypeDecorBeartypistryException => some .BeartypeDecorException
  | ._BeartypeUtilException => some .BeartypeException
  | ._BeartypeUtilCallableException => some ._BeartypeUtilException
  | ._BeartypeUtilMappingException => some ._BeartypeUtilException
  | ._BeartypeUtilModuleException => some ._BeartypeUtilException
  | ._BeartypeUtilPathException => some ._BeartypeUtilException
  | ._BeartypeUtilPythonException => some ._BeartypeUtilException
  | ._BeartypeUtilTextException => some ._BeartypeUtilException
  | ._BeartypeUtilTypeException => some ._BeartypeUtilException
  | ._BeartypeCallHintRaiseException => some ._BeartypeUtilException
  | ._BeartypeCallHintPepRaiseException => some ._BeartypeCallHintRaiseException
  | ._BeartypeCallHintPepRaiseDesynchronizationException =>
      some ._BeartypeCallHintPepRaiseException
  | ._BeartypeUtilCachedException => some ._BeartypeUtilException
  | ._BeartypeUtilCallableCachedException => some ._BeartypeUtilCachedException
  | ._BeartypeUtilCacheLruException => some ._BeartypeUtilCachedException
  | ._BeartypeUtilCachedKeyPoolException => some ._BeartypeUtilException
  | ._BeartypeUtilCachedFixedListException => some ._BeartypeUtilCachedException
  | ._BeartypeUtilCachedObjectTypedException => some ._BeartypeUtilCachedException
  | ._BeartypeUtilObjectException => some ._BeartypeUtilException
  | ._BeartypeUtilObjectNameException => some ._BeartypeUtilObjectException

/-- The chain of classes reachable from `c` through declared bases, `c`
first, cut off by the fuel (the hierarchy is at most 6 deep). -/
def ancestorsFrom : Nat → ExcClass → List ExcClass
  | 0, c => [c]
  | Nat.succ n, c =>
      c :: (match parentExc c with
            | some p => ancestorsFrom n p
            | none => [])

/-- All (reflexive, transitive) superclasses of `c` inside the taxonomy. -/
def ancestorsOf (c : ExcClass) : List ExcClass := ancestorsFrom 64 c

/-- Python `issubclass` restricted to the taxonomy: `a` is `b` or inherits
from `b` through the declared bases. -/
def isSubclassOfB (a b : ExcClass) : Bool := (ancestorsOf a).contains b

/-- The abstract-method names a class body itself declares. No class body
in `_roarexc.py` uses `@abstractmethod`, so this is everywhere empty;
Python's constructor check below folds it through the inheritance chain
exactly as `ABCMeta` computes `__abstractmethods__`. -/
def declaredAbstractMethods : ExcClass → List String := fun _ => []

/-- `__abstractmethods__` of a class: abstract methods declared by the
class or any ancestor (none is ever overridden, since none exists). -/
def abstractMethodsOf (c : ExcClass) : List String :=
  (ancestorsOf c).foldr (fun a acc => declaredAbstractMethods a ++ acc) []

/-- Python's `ABCMeta` instantiation rule: calling a class raises
`TypeError` exactly when `__abstractmethods__` is non-empty; otherwise
the instance is constructed. All taxonomy classes carry `ABCMeta`
(declared on the root, inherited below it). -/
def is_instantiable (c : ExcClass) : Bool := (abstractMethodsOf c).isEmpty

/-- Classes whose docstring in `_roarexc.py` opens with
"Abstract base class of all ...". -/
def isDocumentedAbstract : ExcClass → Bool
  | .BeartypeException => true
  | .BeartypeCaveException => true
  | .BeartypeCaveNoneTypeOrException => true
  | .BeartypeDecorException => true
  | .BeartypeDecorHintException => true
  | .BeartypeDecorHintPepException => true
  | .BeartypeDecorParamException => true
  | .BeartypeDecorPepException => true
  | .BeartypeCallException => true
  | .BeartypeCallHintException => true
  | .BeartypeCallHintViolation => true
  | .BeartypeClawException => true
  | .BeartypeValeException => true
  | ._BeartypeUtilException => true
  | ._BeartypeCallHintRaiseException => true
  | ._BeartypeUtilCachedException => true
  | ._BeartypeUtilObjectException => true
  | _ => false

end Roar

namespace Resolver

/-- A small closed universe of the hint objects
`beartype/_util/hint/utilhintget.py` can receive: `typing` attributes
(some of which are simultaneously classes), plain builtin classes, and a
non-class non-`typing` object. -/
inductive HintObj where
  | typingDict
  | typingList
  | typingUnion
  | typingGeneric
  | typingMappedCls
  | dictCls
  | listCls
  | intCls
  | strCls
  | obj42
deriving DecidableEq, Fintype

/-- Modelled from the spec: `is_hint_pep_typing` lives in
`beartype._util.hint.pep.utilhintpeptest`, absent from the sources. Per
the spec's classifier section it recognises exactly the hints declared by
the `typing` module, including those that are simultaneously classes. -/
def is_hint_pep_typing : HintObj → Bool
  | .typingDict | .typingList | .typingUnion
  | .typingGeneric | .typingMappedCls => true
  | _ => false

/-- Python `isinstance(hint, type)` on this universe: the plain builtin
classes, plus the two `typing` attributes that are also classes. -/
def isinstanceType : HintObj → Bool
  | .dictCls | .listCls | .intCls | .strCls
  | .typingGeneric | .typingMappedCls => true
  | _ => false

/-- Modelled from the spec: the `TYPING_ATTR_TO_TYPE_ORIGIN` mapping of
`beartype._util.hint.pep.utilhintpepdata` is absent from the sources; per
§4.2 it sends a parametrizable `typing` attribute to its unparametrized
base class and leaves union-like purely structural attributes unmapped.
This is its bound `.get` method: `None` for unmapped keys. -/
def TYPING_ATTR_TO_TYPE_ORIGIN_GET : HintObj → Option HintObj
  | .typingDict => some .dictCls
  | .typingList => some .listCls
  | .typingMappedCls => some .dictCls
  | _ => none

/-- `get_hint_type_origin_or_none` of `utilhintget.py` (lines 86-138):
test the `typing`-attribute case first, then the plain-class case, else
`None`. -/
def get_hint_type_origin_or_none (hint : HintObj) : Option HintObj :=
  if is_hint_pep_typing hint then TYPING_ATTR_TO_TYPE_ORIGIN_GET hint
  else if isinstanceType hint then some hint
  else none

/-- `get_hint_type_origin` of `utilhintget.py` (lines 23-83): return the
non-`None` result of the non-failing variant, else raise
`BeartypeDecorHintException`. -/
def get_hint_type_origin (hint : HintObj) :
    Except (Roar.ExcClass × String) HintObj :=
  match get_hint_type_origin_or_none hint with
  | some hint_type_origin => .ok hint_type_origin
  | none => .error (Roar.ExcClass.BeartypeDecorHintException,
      "PEP-agnostic type hint originates from no non-typing type")

end Resolver

namespace Engine

/-- Modelled from the spec: the values ("piths") the checking engine of
§4.4-§4.5 receives (the engine itself is absent from the sources; only
its unit test `test_beartype.py` is). Integers and strings cannot be
weakly referenced in Python, lists cannot either; instances of
user-defined classes (`objV`) can. -/
inductive Val where
  | intV : Int → Val
  | strV : String → Val
  | objV : Int → Val
  | listV : List Val → Val

/-- Modelled from the spec: the recursive hint tree of §3, restricted to
the categories the culprit claims exercise: two class hints, the
parametrized sequence hint, and the union hint. -/
inductive Hint where
  | intH
  | strH
  | listH : Hint → Hint
  | unionH : Hint → Hint → Hint
deriving DecidableEq

/-- Modelled from the spec: the compiled check of §4.4, here in its
exhaustive form (the diagnoser's §4.5 traversal re-checks exhaustively;
sampling only weakens the fast path and plays no role in the culprit
claims). Unions OR their alternatives; sequence hints require the origin
(list) shape and check every element. -/
def check (h : Hint) (v : Val) : Bool :=
  match h, v with
  | .intH, .intV _ => true
  | .intH, _ => false
  | .strH, .strV _ => true
  | .strH, _ => false
  | .listH h0, .listV vs => vs.all (fun w => check h0 w)
  | .listH _, _ => false
  | .unionH a b, _ => check a v || check b v
termination_by sizeOf h
decreasing_by all_goals simp <;> omega

/-- Modelled from the spec: the diagnoser's walk of §4.5, returning the
failing values outermost-first. If the shallow (origin-shape) test
already fails, the current value is the final culprit; a sequence hint
descends into the first exhaustively-found failing element; a union
descends into its last-evaluated alternative for the same value. -/
def culpritsOf (h : Hint) (v : Val) : List Val :=
  match h, v with
  | .listH h0, .listV vs =>
      match vs.find? (fun w => ! check h0 w) with
      | some w => v :: culpritsOf h0 w
      | none => [v]
  | .unionH _ b, _ => culpritsOf b v
  | _, _ => [v]
termination_by sizeOf h
decreasing_by all_goals simp

/-- Modelled from the spec: whether Python can take a weak reference to
the value — true only for instances of user-defined classes. -/
def canWeakref : Val → Bool
  | .objV _ => true
  | _ => false

/-- Modelled from the spec: the truncated textual representation the
diagnoser falls back to; always non-empty. -/
def reprVal : Val → String
  | .intV n => "<int " ++ toString n ++ ">"
  | .strV s => "<str " ++ s ++ ">"
  | .objV n => "<object " ++ toString n ++ ">"
  | .listV _ => "<list [...]>"

/-- A culprit entry: the blamed value itself when it can be weakly
referenced, else its textual representation. -/
inductive Culprit where
  | objRef : Val → Culprit
  | txt : String → Culprit

/-- Wrap a blamed value as the violation records it. -/
def mkCulprit (v : Val) : Culprit :=
  if canWeakref v then .objRef v else .txt (reprVal v)

/-- Modelled from the spec: the violation record of §3 — the culprit
sequence, outermost first, and a rendered message. -/
structure Violation where
  culprits : List Culprit
  message : String

/-- Modelled from the spec: `diagnose` of §4.5 builds the violation from
the failing path. -/
def diagnose (h : Hint) (v : Val) : Violation :=
  { culprits := (culpritsOf h v).map mkCulprit
  , message := "value " ++ reprVal v ++ " violates its hint" }

/-- Modelled from the spec: the checked call of §6 — pass the value
through unchanged on success, raise the diagnosed violation on failure. -/
def checkedCall (h : Hint) (v : Val) : Except Violation Val :=
  if check h v then .ok v else .error (diagnose h v)

theorem culpritsOf_cons (h : Hint) (v : Val) :
    ∃ rest, culpritsOf h v = v :: rest ∧
      ∀ w ∈ rest, sizeOf w < sizeOf v := by
  induction h generalizing v with
  | intH => exact ⟨[], by simp [culpritsOf], by simp⟩
  | strH => exact ⟨[], by simp [culpritsOf], by simp⟩
  | listH h0 ih =>
      cases v with
      | listV vs =>
          cases hf : vs.find? (fun w => ! check h0 w) with
          | none => exact ⟨[], by simp [culpritsOf, hf], by simp⟩
          | some w =>
              obtain ⟨rest, hrest, hsize⟩ := ih w
              refine ⟨w :: rest, by simp [culpritsOf, hf, hrest], ?_⟩
              have hmem : w ∈ vs := List.mem_of_find?_eq_some hf
              have hw : sizeOf w < sizeOf (Val.listV vs) := by
                have := List.sizeOf_lt_of_mem hmem
                simp only [Val.listV.sizeOf_spec]
                omega
              intro x hx
              rcases List.mem_cons.mp hx with hx | hx
              · exact hx ▸ hw
              · exact Nat.lt_trans (hsize x hx) hw
      | intV n => exact ⟨[], by simp [culpritsOf], by simp⟩
      | strV s => exact ⟨[], by simp [culpritsOf], by simp⟩
      | objV n => exact ⟨[], by simp [culpritsOf], by simp⟩
  | unionH a b iha ihb =>
      obtain ⟨rest, hrest, hsize⟩ := ihb v
      exact ⟨rest, by simp [culpritsOf, hrest], hsize⟩

theorem reprVal_ne_empty (v : Val) : reprVal v ≠ "" := by
  intro hEq
  have hLen := congrArg String.length hEq
  cases v with
  | intV n =>
      simp [reprVal, String.length_append] at hLen
      exact absurd hLen.1.1 (by decide)
  | strV s =>
      simp [reprVal, String.length_append] at hLen
      exact absurd hLen.1.1 (by decide)
  | objV n =>
      simp [reprVal, String.length_append] at hLen
      exact absurd hLen.1.1 (by decide)
  | listV vs =>
      simp [reprVal, String.length_append] at hLen
      exact absurd hLen (by decide)

end Engine

namespace ObjUtil

/-- A small closed universe of Python classes for
`beartype/_util/utilobject.py`: the builtins the module's getters touch.
`boolT` inherits from `intT`; everything else inherits from `objectT`
directly; classes themselves are instances of `typeT`. -/
inductive PyType where
  | objectT
  | typeT
  | intT
  | boolT
  | strT
  | listT
  | noneT
deriving DecidableEq, Fintype

/-- The declared base of each class, or `none` for `object`. -/
def typeParent : PyType → Option PyType
  | .objectT => none
  | .boolT => some .intT
  | _ => some .objectT

/-- The inheritance chain of a class, itself first (fuel-bounded; the
hierarchy is at most 3 deep). -/
def typeAncestorsFrom : Nat → PyType → List PyType
  | 0, t => [t]
  | Nat.succ n, t =>
      t :: (match typeParent t with
            | some p => typeAncestorsFrom n p
            | none => [])

/-- Python `issubclass` on classes: reflexive-transitive inheritance. -/
def issubclassB (a b : PyType) : Bool :=
  (typeAncestorsFrom 8 a).contains b

/-- The Python objects the module's getters receive: integers, strings,
`None`, and classes themselves (every class is an object of type
`type`). -/
inductive PyObj where
  | intV : Int → PyObj
  | strV : String → PyObj
  | noneV
  | typeV : PyType → PyObj
deriving DecidableEq

/-- Python `type(obj)`: the class an object is an instance of. -/
def type_of : PyObj → PyType
  | .intV _ => .intT
  | .strV _ => .strT
  | .noneV => .noneT
  | .typeV _ => .typeT

/-- Python `isinstance(obj, cls)`: the object's class is `cls` or a
subclass of it. `isinstance(obj, type)` is `isinstance_obj obj .typeT`. -/
def isinstance_obj (obj : PyObj) (cls : PyType) : Bool :=
  issubclassB (type_of obj) cls

/-- Python's raw `issubclass` builtin applied to an arbitrary object:
raises `TypeError` when its first argument is not a class. -/
def issubclass_raw (obj : PyObj) (cls : PyType) : Except String Bool :=
  match obj with
  | .typeV t => .ok (issubclassB t cls)
  | _ => .error "TypeError: issubclass() arg 1 must be a class"

/-- `is_object_subclass` of `utilobject.py` (lines 105-132):
`isinstance(obj, type) and issubclass(obj, cls)`, the left conjunct
short-circuiting so the raw `issubclass` is only reached on classes. The
`Except` codomain records whether the call raises. -/
def is_object_subclass (obj : PyObj) (cls : PyType) :
    Except String Bool :=
  if isinstance_obj obj .typeT then issubclass_raw obj cls
  else .ok false

/-- `get_object_class_unless_class` of `utilobject.py` (lines 181-204):
`obj if isinstance(obj, type) else type(obj)`. -/
def get_object_class_unless_class (obj : PyObj) : PyObj :=
  if isinstance_obj obj .typeT then obj else PyObj.typeV (type_of obj)

/-- Python attribute read `x.__name__` with its `AttributeError`:
classes carry their name; the other objects in this universe do not
define `__name__`. -/
def dunder_name : PyObj → Except String String
  | .typeV t =>
      .ok (match t with
           | .objectT => "object"
           | .typeT => "type"
           | .intT => "int"
           | .boolT => "bool"
           | .strT => "str"
           | .listT => "list"
           | .noneT => "NoneType")
  | _ => .error "AttributeError: no attribute named __name__"

/-- Modelled from the spec: `get_object_class_module_name_or_none` lives
in `beartype._util.py.utilpymodule`, absent from the sources; per its
call sites in `utilobject.py` it returns the fully-qualified name of the
module declaring the class of the passed object (the object itself when
it is a class), or `None`. Every class in this universe is a builtin. -/
def get_object_class_module_name_or_none (obj : PyObj) : Option String :=
  match obj with
  | .typeV _ => some "builtins"
  | _ => some "builtins"

/-- The builtin class `object`, as an object. -/
def object_builtin : PyObj := PyObj.typeV PyType.objectT

/-- `get_object_name` of `utilobject.py` (lines 135-178). The source
reads `object.__name__` and passes `object` — the builtin class, not the
`obj` parameter — to the module-name helper, so the parameter is never
consulted. -/
def get_object_name (obj : PyObj) : Except String String :=
  match dunder_name object_builtin with
  | .error e => .error e
  | .ok object_basename =>
      .ok (match get_object_class_module_name_or_none object_builtin with
           | some object_module_name =>
               object_module_name ++ "." ++ object_basename
           | none => object_basename)

end ObjUtil

/-- C1: `get_hint_type_origin_or_none` returns the typing-attribute
mapping's result (possibly `none`) when the hint is a `typing` attribute,
else the hint itself when the hint is a class, else `none`; the
typing-attribute test runs first, so a `typing` attribute that is
simultaneously a class yields the mapped origin (or `none`), never
itself. -/
theorem claim_C1 : ∀ h : Resolver.HintObj,
    (Resolver.get_hint_type_origin_or_none h =
      if Resolver.is_hint_pep_typing h then
        Resolver.TYPING_ATTR_TO_TYPE_ORIGIN_GET h
      else if Resolver.isinstanceType h then some h
      else none)
    ∧ (Resolver.is_hint_pep_typing h = true →
        Resolver.isinstanceType h = true →
        Resolver.get_hint_type_origin_or_none h =
          Resolver.TYPING_ATTR_TO_TYPE_ORIGIN_GET h ∧
        Resolver.get_hint_type_origin_or_none h ≠ some h) := by
  decide

/-- C1 witness: `typing.Generic`-like hint — a `typing` attribute that is
simultaneously a class — resolves through the mapping, not to itself. -/
theorem claim_C1_witness :
    Resolver.get_hint_type_origin_or_none Resolver.HintObj.typingGeneric =
      Resolver.TYPING_ATTR_TO_TYPE_ORIGIN_GET
        Resolver.HintObj.typingGeneric ∧
    Resolver.get_hint_type_origin_or_none Resolver.HintObj.typingGeneric ≠
      some Resolver.HintObj.typingGeneric :=
  (claim_C1 Resolver.HintObj.typingGeneric).2 (by decide) (by decide)

/-- C2: `get_hint_type_origin` returns a type exactly when the
non-failing variant returns that same type, and raises the
origin-type error — `BeartypeDecorHintException`, a kind inside the
decoration-time hint-validity branch — exactly when the non-failing
variant returns `none`; there is no third outcome. -/
theorem claim_C2 : ∀ h : Resolver.HintObj,
    (∀ t, Resolver.get_hint_type_origin h = .ok t ↔
        Resolver.get_hint_type_origin_or_none h = some t)
    ∧ (Resolver.get_hint_type_origin_or_none h = none ↔
        ∃ msg, Resolver.get_hint_type_origin h =
          .error (Roar.ExcClass.BeartypeDecorHintException, msg))
    ∧ ((∃ t, Resolver.get_hint_type_origin h = .ok t) ∨
        (∃ msg, Resolver.get_hint_type_origin h =
          .error (Roar.ExcClass.BeartypeDecorHintException, msg)))
    ∧ Roar.isSubclassOfB Roar.ExcClass.BeartypeDecorHintException
        Roar.ExcClass.BeartypeDecorException = true := by
  intro h
  refine ⟨?_, ?_, ?_, by decide⟩ <;>
    cases ho : Resolver.get_hint_type_origin_or_none h <;>
      simp [Resolver.get_hint_type_origin, ho]

/-- C2 witness: a plain class resolves to itself; a union-like `typing`
attribute raises the hint-validity error. -/
theorem claim_C2_witness :
    Resolver.get_hint_type_origin Resolver.HintObj.intCls =
      .ok Resolver.HintObj.intCls
    ∧ ∃ msg, Resolver.get_hint_type_origin Resolver.HintObj.typingUnion =
        .error (Roar.ExcClass.BeartypeDecorHintException, msg) :=
  ⟨((claim_C2 Resolver.HintObj.intCls).1 Resolver.HintObj.intCls).mpr rfl,
   (claim_C2 Resolver.HintObj.typingUnion).2.1.mp rfl⟩

/-- C3: the desynchronization exception descends from the
internal-invariant branch `_BeartypeUtilException` and is not a subclass
of `BeartypeCallHintViolation` nor of any kind in the user-facing
call-time branch rooted at `BeartypeCallException`. -/
theorem claim_C3 :
    Roar.isSubclassOfB
      Roar.ExcClass._BeartypeCallHintPepRaiseDesynchronizationException
      Roar.ExcClass._BeartypeUtilException = true
    ∧ Roar.isSubclassOfB
        Roar.ExcClass._BeartypeCallHintPepRaiseDesynchronizationException
        Roar.ExcClass.BeartypeCallHintViolation = false
    ∧ ∀ c : Roar.ExcClass,
        Roar.isSubclassOfB c Roar.ExcClass.BeartypeCallException = true →
        Roar.isSubclassOfB
          Roar.ExcClass._BeartypeCallHintPepRaiseDesynchronizationException
          c = false := by
  decide

/-- C3 witness: in particular the desynchronization exception is not a
parameter-violation kind. -/
theorem claim_C3_witness :
    Roar.isSubclassOfB
      Roar.ExcClass._BeartypeCallHintPepRaiseDesynchronizationException
      Roar.ExcClass.BeartypeCallHintParamViolation = false :=
  claim_C3.2.2 Roar.ExcClass.BeartypeCallHintParamViolation (by decide)

/-- C4: every class of the taxonomy is a (reflexive-transitive) subclass
of the single root `BeartypeException`, and every class other than the
root declares exactly one parent inside the taxonomy (the embedding's
parent is a function, so the declared parent is unique by
construction). -/
theorem claim_C4 : ∀ c : Roar.ExcClass,
    Roar.isSubclassOfB c Roar.ExcClass.BeartypeException = true
    ∧ (c = Roar.ExcClass.BeartypeException ∨
        (Roar.parentExc c).isSome = true) := by
  decide

/-- C5 counterexample: the root `BeartypeException` is documented as an
abstract branch, yet — carrying `ABCMeta` with an empty
`__abstractmethods__` set, since no class declares an abstract method —
it is directly instantiable, refuting "abstract branches can never be
instantiated directly". -/
theorem claim_C5_counterexample :
    Roar.isDocumentedAbstract Roar.ExcClass.BeartypeException = true
    ∧ Roar.is_instantiable Roar.ExcClass.BeartypeException = true := by
  decide

/-- C5 amended: abstract branches of the taxonomy are abstract by
documentation and `ABCMeta` declaration only; since no class declares an
abstract method, every class of the taxonomy — abstract branches
included — can be instantiated directly. -/
theorem claim_C5 : ∀ c : Roar.ExcClass, Roar.is_instantiable c = true := by
  decide

/-- C6: for every failed check, the violation carries a non-empty culprit
sequence headed by the outermost failing value itself — or, when that
value cannot be referenced weakly, by a non-empty textual representation
of it — and every subsequent culprit is a sub-value distinct from the
outermost failing value. -/
theorem claim_C6 (h : Engine.Hint) (v : Engine.Val)
    (hfail : Engine.check h v = false) :
    ∃ rest, Engine.culpritsOf h v = v :: rest
      ∧ (∀ w ∈ rest, w ≠ v)
      ∧ (Engine.diagnose h v).culprits =
          Engine.mkCulprit v :: rest.map Engine.mkCulprit
      ∧ (Engine.canWeakref v = true →
          Engine.mkCulprit v = Engine.Culprit.objRef v)
      ∧ (Engine.canWeakref v = false →
          Engine.mkCulprit v = Engine.Culprit.txt (Engine.reprVal v) ∧
          Engine.reprVal v ≠ "") := by
  obtain ⟨rest, hrest, hsize⟩ := Engine.culpritsOf_cons h v
  refine ⟨rest, hrest, ?_, ?_, ?_, ?_⟩
  · intro w hw hwv
    exact absurd (hwv ▸ hsize w hw) (Nat.lt_irrefl _)
  · simp [Engine.diagnose, hrest]
  · intro hweak
    simp [Engine.mkCulprit, hweak]
  · intro hweak
    exact ⟨by simp [Engine.mkCulprit, hweak], Engine.reprVal_ne_empty v⟩

/-- C6 witness: a string pith failing an `int` hint yields the culprit
list headed by the pith, rendered as a non-empty fallback text since
Python cannot weakly reference a `str`. -/
theorem claim_C6_witness :
    Engine.check Engine.Hint.intH (Engine.Val.strV "a") = false
    ∧ ∃ rest,
        Engine.culpritsOf Engine.Hint.intH (Engine.Val.strV "a") =
          Engine.Val.strV "a" :: rest := by
  have hc : Engine.check Engine.Hint.intH (Engine.Val.strV "a") = false := by
    simp [Engine.check]
  obtain ⟨rest, h1, -⟩ := claim_C6 Engine.Hint.intH (Engine.Val.strV "a") hc
  exact ⟨hc, rest, h1⟩

/-- C7: for every value satisfying its hint, the checked call passes and
yields exactly the value that was passed in. -/
theorem claim_C7 (h : Engine.Hint) (v : Engine.Val)
    (hpass : Engine.check h v = true) :
    Engine.checkedCall h v = .ok v := by
  simp [Engine.checkedCall, hpass]

/-- C7 witness: an integer pith satisfying the `int` hint is returned
unchanged. -/
theorem claim_C7_witness :
    Engine.check Engine.Hint.intH (Engine.Val.intV 5) = true
    ∧ Engine.checkedCall Engine.Hint.intH (Engine.Val.intV 5) =
        .ok (Engine.Val.intV 5) := by
  have hc : Engine.check Engine.Hint.intH (Engine.Val.intV 5) = true := by
    simp [Engine.check]
  exact ⟨hc, claim_C7 Engine.Hint.intH (Engine.Val.intV 5) hc⟩

/-- C8: `is_object_subclass` is total and never raises: it answers `True`
exactly when the object is itself a class that subclasses `cls`, and
answers `False` — rather than raising as the bare `issubclass` builtin
would — whenever the object is not a class. -/
theorem claim_C8 (obj : ObjUtil.PyObj) (cls : ObjUtil.PyType) :
    (∃ b, ObjUtil.is_object_subclass obj cls = .ok b)
    ∧ (ObjUtil.is_object_subclass obj cls = .ok true ↔
        ∃ t, obj = ObjUtil.PyObj.typeV t ∧
          ObjUtil.issubclassB t cls = true)
    ∧ (ObjUtil.isinstance_obj obj ObjUtil.PyType.typeT = false →
        ObjUtil.is_object_subclass obj cls = .ok false) := by
  cases obj with
  | typeV t =>
      have hinst : ObjUtil.isinstance_obj (ObjUtil.PyObj.typeV t)
          ObjUtil.PyType.typeT = true := rfl
      refine ⟨⟨ObjUtil.issubclassB t cls, ?_⟩, ?_, ?_⟩
      · simp [ObjUtil.is_object_subclass, hinst, ObjUtil.issubclass_raw]
      · simp [ObjUtil.is_object_subclass, hinst, ObjUtil.issubclass_raw]
      · intro hcontra
        rw [hinst] at hcontra
        exact absurd hcontra (by decide)
  | intV n =>
      have hinst : ObjUtil.isinstance_obj (ObjUtil.PyObj.intV n)
          ObjUtil.PyType.typeT = false := rfl
      exact ⟨⟨false, rfl⟩,
        by simp [ObjUtil.is_object_subclass, hinst], fun _ => rfl⟩
  | strV s =>
      have hinst : ObjUtil.isinstance_obj (ObjUtil.PyObj.strV s)
          ObjUtil.PyType.typeT = false := rfl
      exact ⟨⟨false, rfl⟩,
        by simp [ObjUtil.is_object_subclass, hinst], fun _ => rfl⟩
  | noneV =>
      have hinst : ObjUtil.isinstance_obj ObjUtil.PyObj.noneV
          ObjUtil.PyType.typeT = false := rfl
      exact ⟨⟨false, rfl⟩,
        by simp [ObjUtil.is_object_subclass, hinst], fun _ => rfl⟩

/-- C8 witness: asked about the non-class object `3`, the tester answers
`False` instead of raising. -/
theorem claim_C8_witness :
    ObjUtil.is_object_subclass (ObjUtil.PyObj.intV 3) ObjUtil.PyType.intT =
      .ok false :=
  (claim_C8 (ObjUtil.PyObj.intV 3) ObjUtil.PyType.intT).2.2 rfl

/-- C9: `get_object_class_unless_class` is total, always returns a class,
and is idempotent. -/
theorem claim_C9 (obj : ObjUtil.PyObj) :
    ObjUtil.isinstance_obj (ObjUtil.get_object_class_unless_class obj)
      ObjUtil.PyType.typeT = true
    ∧ ObjUtil.get_object_class_unless_class
        (ObjUtil.get_object_class_unless_class obj) =
      ObjUtil.get_object_class_unless_class obj := by
  cases obj <;> exact ⟨rfl, rfl⟩

/-- C10: `get_object_name` ignores its parameter — it reads the
`__name__` and module of the builtin class `object` — so it returns the
same result, `"builtins.object"`, for every input and never raises the
documented `AttributeError`, even for objects lacking `__name__` (such as
`3`, on which the attribute read itself would fail). -/
theorem claim_C10 :
    (∀ a b : ObjUtil.PyObj,
      ObjUtil.get_object_name a = ObjUtil.get_object_name b)
    ∧ (∀ obj : ObjUtil.PyObj,
        ObjUtil.get_object_name obj = .ok "builtins.object")
    ∧ (ObjUtil.dunder_name (ObjUtil.PyObj.intV 3)).isOk = false :=
  ⟨fun _ _ => rfl, fun _ => rfl, rfl⟩
